import Mathlib

/-!
Shallow embedding of the pf9ctl node-lifecycle orchestrators
(src/pkg/pmk/node.go, src/pkg/pmk/decomissionNode.go, src/cmd/attachNode.go).

External interactions (shell commands run through the command executor,
control-plane API calls, HTTP probes, console prints) are modelled as an
event trace; the outcome of each external interaction is supplied by an
oracle structure (a "world"), one field per interaction of the run.  The
control flow of each Go function is translated branch by branch; commands
are rendered to the same strings the Go fmt.Sprintf calls produce.
`zap.S().Fatalf` terminates the process, so orchestrators that use it
return an `Outcome` that is either `done` or `fatal`; `PrepNode` returns
a Go error value, so it returns a `GoResult` instead, with a dedicated
`panicked` outcome for a nil-pointer dereference.
-/

namespace Pf9

/-- Result of a Go call returning `(string, error)`: captured stdout plus
an optional error message (`none` models a nil error). -/
structure ExecResult where
  out : String
  err : Option String
deriving DecidableEq

/-- Boolean prefix test on char lists (structural, kernel-computable). -/
def strPrefixAux : List Char → List Char → Bool
  | [], _ => true
  | _ :: _, [] => false
  | a :: as, b :: bs => a == b && strPrefixAux as bs

/-- Boolean substring test on char lists, mirroring Go `strings.Contains`. -/
def strInfixAux (pat : List Char) : List Char → Bool
  | [] => pat.isEmpty
  | c :: rest => strPrefixAux pat (c :: rest) || strInfixAux pat rest

/-- Go `strings.HasPrefix p s`-style test: is `p` a prefix of `s`. -/
def strPrefixOf (p s : String) : Bool := strPrefixAux p.data s.data

/-- Go `strings.Contains s sub`. -/
def goContains (s sub : String) : Bool := strInfixAux sub.data s.data

/-- Whitespace class used by Go `strings.TrimSpace` (ASCII cases). -/
def isSpaceChar (c : Char) : Bool := c == ' ' || c == '\t' || c == '\n' || c == '\r'

/-- Go `strings.TrimSpace`. -/
def goTrimSpace (s : String) : String :=
  String.mk (((s.data.dropWhile isSpaceChar).reverse.dropWhile isSpaceChar).reverse)

/-- Go `strings.Trim s cutset`: drop leading/trailing chars of `cut`. -/
def goTrimCutset (s : String) (cut : List Char) : String :=
  String.mk (((s.data.dropWhile (fun c => cut.contains c)).reverse.dropWhile
    (fun c => cut.contains c)).reverse)

/-- Go `strings.ToLower` (char-wise). -/
def goToLower (s : String) : String := String.mk (s.data.map Char.toLower)

/-- Single-quote wrapper, as produced by the Go format strings that embed
a value in shell single quotes. -/
def sq (s : String) : String :=
  String.mk (Char.ofNat 39 :: (s.data ++ [Char.ofNat 39]))

/-- Process outcome of an orchestrator that terminates through
`zap.S().Fatalf` on errors. -/
inductive Outcome where
  | done
  | fatal (msg : String)
deriving DecidableEq

/-- Result of a Go function returning `error`, with a `panicked` case for a
run that dereferences a nil error value. -/
inductive GoResult where
  | ok
  | err (msg : String)
  | panicked
deriving DecidableEq

/-! ## Platform detection (src/pkg/pmk/node.go, ValidatePlatform / OpenOSReleaseFile) -/

/-- Oracle for one platform-detection run: the `cat /etc/os-release` result
and the two family version queries. -/
structure PlatformWorld where
  osRelease : ExecResult
  centosVersion : ExecResult
  debianVersion : ExecResult
deriving DecidableEq

/-- Modelled from the spec: `util.Centos`, the redhat-family marker substring
(the `util` package is not under src/). -/
def centosMarker : String := "centos"

/-- Modelled from the spec: `util.Redhat`, the redhat-family marker substring
(the `util` package is not under src/). -/
def redhatMarker : String := "red hat"

/-- Modelled from the spec: `util.Ubuntu`, the debian-family marker substring
(the `util` package is not under src/). -/
def ubuntuMarker : String := "ubuntu"

/-- OpenOSReleaseFile: `cat /etc/os-release` through the executor, lower-cased;
wraps a read failure. -/
def OpenOSReleaseFile (w : PlatformWorld) : String × Option String :=
  match w.osRelease.err with
  | some e => ("", some ("failed reading data from file: " ++ e))
  | none => (goToLower w.osRelease.out, none)

/-- ValidatePlatform: reads the release metadata, tests redhat-family markers
then the debian-family marker, and delegates to the matching family version
query (modelled by the oracle fields `centosVersion` / `debianVersion`,
whose implementations are not under src/).  A version-query failure and a
no-marker match both fall through to `("", none)` — no error. -/
def ValidatePlatform (w : PlatformWorld) : String × Option String :=
  match OpenOSReleaseFile w with
  | (_, some e) => ("", some ("failed reading data from file: " ++ e))
  | (strData, none) =>
    if goContains strData centosMarker || goContains strData redhatMarker then
      match w.centosVersion.err with
      | none => (w.centosVersion.out, none)
      | some _ => ("", none)
    else if goContains strData ubuntuMarker then
      match w.debianVersion.err with
      | none => (w.debianVersion.out, none)
      | some _ => ("", none)
    else ("", none)

/-! ## Decommission orchestrator (src/pkg/pmk/decomissionNode.go) -/

/-- Observable action of a decommission run: an executor shell command, a
console print, or a control-plane API call. -/
inductive DEvent where
  | cmd (s : String)
  | print (s : String)
  | apiGetAuth
  | apiGetHostId
  | apiGetNodeInfo
  | apiDetach
  | apiDeauth
deriving DecidableEq

/-- Oracle for one decommission run, one field per external interaction.
`files` models `util.Files` (the fixed list of log/state files; the `util`
package is not under src/, the spec only says the list is fixed).  The
three service-stop errors and the purge error are only ever logged by the
code, so no branch reads them. -/
structure DecomWorld where
  executorErr : Option String
  clientErr : Option String
  authErr : Option String
  hostnameRes : ExecResult
  platform : PlatformWorld
  hostIDs : List String
  agentQueryErr : Option String
  nodeClusterName : String
  nodeClusterUuid : String
  detachErr : Option String
  deauthErr : Option String
  stopHostagentErr : Option String
  stopNodeletdErr : Option String
  stopKubeletErr : Option String
  purgeErr : Option String
  files : List String

/-- Shell command stopping one pf9 service. -/
def stopServiceCmd (service : String) : String := "sudo systemctl stop " ++ service

/-- Family-specific package purge command. -/
def purgeCmd (hostOS : String) : String :=
  if hostOS == "debian" then "sudo apt-get purge pf9-hostagent -y"
  else "sudo yum remove pf9-hostagent -y"

/-- Family-specific agent-presence query. -/
def presenceCheckCmd (hostOS : String) : String :=
  if hostOS == "debian" then "dpkg -s pf9-hostagent"
  else "yum list installed pf9-hostagent"

/-- Event deleting one log/state file. -/
def rmFileEvent (f : String) : DEvent := DEvent.cmd ("rm -rf " ++ f)

/-- removeHostagent: stop the three services (failures logged, non-fatal),
purge the package (failure logged), then delete the log files regardless. -/
def removeHostagent (w : DecomWorld) (hostOS : String) : List DEvent :=
  [DEvent.print ("Removing pf9-hostagent (this might take a few minutes...)"),
   DEvent.cmd (stopServiceCmd ("pf9-hostagent")),
   DEvent.cmd (stopServiceCmd ("pf9-nodeletd")),
   DEvent.cmd (stopServiceCmd ("pf9-kubelet")),
   DEvent.cmd (purgeCmd hostOS)]
  ++ (match w.purgeErr with
      | none => [DEvent.print ("Removed hostagent")]
      | some _ => [])
  ++ [DEvent.print ("Removing logs...")]
  ++ w.files.map rmFileEvent

/-- Modelled from the spec: `util.EtcDir` (value evident from the adjacent
print in the source). -/
def etcDir : String := "/etc/pf9"

/-- Modelled from the spec: `util.OptDir` (value evident from the adjacent
print in the source). -/
def optDir : String := "/var/opt/pf9"

/-- removePf9Installation: optional full local purge of pf9 directories. -/
def removePf9Installation : List DEvent :=
  [DEvent.print ("Removing /etc/pf9 logs"), DEvent.cmd ("rm -rf " ++ etcDir),
   DEvent.print ("Removing /var/opt/pf9 logs"), DEvent.cmd ("rm -rf " ++ optDir),
   DEvent.print ("Removing pf9 HOME dir"), DEvent.cmd ("rm -rf $HOME/pf9")]

/-- Settle message printed at the end of a completed decommission. -/
def decomDoneMsg : String :=
  "Node decommissioning started....This may take a few minutes....Check the latest status in UI"

/-- DecommissionNode: single-pass orchestrator.  `zap.S().Fatalf` is
`Outcome.fatal`; a `GetAuth` failure is only logged (run continues). -/
def DecommissionNode (w : DecomWorld) (removePf9 : Bool) : List DEvent × Outcome :=
  match w.executorErr with
  | some e => ([], Outcome.fatal ("Unable to create executor: " ++ e))
  | none =>
  match w.clientErr with
  | some e => ([], Outcome.fatal ("Unable to create client: " ++ e))
  | none =>
  let t1 := [DEvent.apiGetAuth, DEvent.cmd ("hostname -I")]
  match w.hostnameRes.err with
  | some _ => (t1, Outcome.fatal ("ERROR : unable to get host ip"))
  | none =>
  let t2 := t1 ++ [DEvent.cmd ("cat /etc/os-release")]
  match ValidatePlatform w.platform with
  | (_, some _) => (t2, Outcome.fatal ("Error getting OS version"))
  | (hostOS, none) =>
  let t3 := t2 ++ [DEvent.apiGetHostId, DEvent.cmd (presenceCheckCmd hostOS)]
  match w.agentQueryErr with
  | some _ =>
    (t3 ++ [DEvent.print ("Host is not connected to Platform9 Management Plane")], Outcome.done)
  | none =>
    match w.hostIDs with
    | [] =>
      -- nodeConnectedToDU stays false; nodeInfo is the zero value, ClusterName = ""
      let t4 := t3 ++ [DEvent.print ("Node is not connected to any cluster")] ++
        removeHostagent w hostOS
      let t5 := t4 ++ (if removePf9 then removePf9Installation else [])
      (t5 ++ [DEvent.print decomDoneMsg], Outcome.done)
    | _ :: _ =>
      let t4 := t3 ++ [DEvent.apiGetNodeInfo]
      if w.nodeClusterName == "" then
        let t5 := t4 ++ [DEvent.print ("Node is not connected to any cluster"), DEvent.apiDeauth]
        match w.deauthErr with
        | some _ => (t5, Outcome.fatal ("Failed to deauthorize node"))
        | none =>
          let t6 := t5 ++ [DEvent.print ("Deauthorized node from UI")] ++
            removeHostagent w hostOS
          let t7 := t6 ++ (if removePf9 then removePf9Installation else [])
          (t7 ++ [DEvent.print decomDoneMsg], Outcome.done)
      else
        let t5 := t4 ++
          [DEvent.print ("Node is connected to " ++ w.nodeClusterName ++ " cluster"),
           DEvent.print ("Detaching node from cluster..."), DEvent.apiDetach]
        match w.detachErr with
        | some _ => (t5, Outcome.fatal ("Failed to detach host from cluster"))
        | none =>
          let t6 := t5 ++
            [DEvent.print ("Detached node from cluster"),
             DEvent.print ("Deauthorizing node from UI..."), DEvent.apiDeauth]
          match w.deauthErr with
          | some _ => (t6, Outcome.fatal ("Failed to deauthorize node"))
          | none =>
            let t7 := t6 ++ [DEvent.print ("Deauthorized node from UI")] ++
              removeHostagent w hostOS
            let t8 := t7 ++ (if removePf9 then removePf9Installation else [])
            (t8 ++ [DEvent.print decomDoneMsg], Outcome.done)

/-- Classifier for the events the decommission ordering claims speak about:
the two cluster-manager mutations, service stops, package purge and file
deletions. -/
def removalEvent (e : DEvent) : Bool :=
  match e with
  | DEvent.cmd s =>
    strPrefixOf ("sudo systemctl stop ") s || strPrefixOf ("sudo apt-get purge") s
    || strPrefixOf ("sudo yum remove") s || strPrefixOf ("rm -rf ") s
  | DEvent.apiDetach => true
  | DEvent.apiDeauth => true
  | _ => false

/-! ## Provisioning orchestrator and installer resolver (src/pkg/pmk/node.go) -/

/-- Observable action of a prep-node run: a local executor command, a
single-string remote executor command, the discovery HTTP GET, the
authorize API call, a telemetry event, or a console print. -/
inductive PEvent where
  | cmd (s : String)
  | cmdRemote (s : String)
  | httpGet (url : String)
  | apiAuthorizeHost
  | segment
  | print (s : String)
deriving DecidableEq

/-- Relevant fields of `objects.Config` threaded into PrepNode. -/
structure Config where
  fqdn : String
  region : String
  username : String
  password : String
  mfaToken : String
  proxyURL : String
  allowInsecure : Bool
deriving DecidableEq

/-- Keystone session: bearer token plus project identifier. -/
structure KeystoneAuth where
  token : String
  projectID : String
deriving DecidableEq

/-- Oracle for the host-agent installation step: region lookup, discovery
probe status (`none` models a transport failure of the GET), and the
results of the shell sub-steps shared by both installer variants. -/
structure InstallWorld where
  regionFetch : ExecResult
  newReqErr : Option String
  discovery : Option Nat
  homeDirRes : ExecResult
  mkdirErr : Option String
  curlErr : Option String
  chmodErr : Option String
  installerExit : Option Nat

/-- Modelled from the spec: `util.InstallerErrors`, the fixed installer
exit-code table (the `util` package is not under src/).  The spec names at
least these categories: generic failure, connectivity failure,
already-installed, unsupported OS, unsupported proxy, permission denied;
the numeric codes here are representative since the exact constants are an
external table. -/
def InstallerErrors : List (Nat × String) :=
  [(1, "Installer failed with a generic error"),
   (2, "Installer could not reach the Platform9 control plane"),
   (3, "Platform9 host agent is already installed"),
   (4, "The host operating system is not supported"),
   (5, "The supplied proxy configuration is not supported"),
   (6, "Permission denied while running the installer")]

/-- Modelled from the spec: the generic fallback message for exit codes
missing from the table. -/
def genericInstallerError : String := "unknown installer error"

/-- Translation of an installer exit code through the fixed table, falling
back to the generic message for unmapped codes. -/
def translateInstallerError (code : Nat) : String :=
  match List.lookup code InstallerErrors with
  | some msg => msg
  | none => genericInstallerError

/-- Discovery / certless download URL for a region and OS. -/
def certlessUrl (regionURL hostOS : String) : String :=
  "https://" ++ regionURL ++ "/clarity/platform9-install-" ++ hostOS ++ ".sh"

/-- Legacy download URL for a region and OS. -/
def legacyUrl (regionURL hostOS : String) : String :=
  "https://" ++ regionURL ++ "/private/platform9-install-" ++ hostOS ++ ".sh"

/-- Home directory as trimmed by createDirToDownloadInstaller
(`strings.TrimSpace(strings.Trim(homeDir, "\n\""))`). -/
def trimmedHome (w : InstallWorld) : String :=
  goTrimSpace (goTrimCutset w.homeDirRes.out ['\n', '"'])

/-- createDirToDownloadInstaller: query `$HOME`, trim it, fail on the query
error; the `mkdir -p` failure is only logged. -/
def createDirToDownloadInstaller (w : InstallWorld) : List PEvent × String × Option String :=
  let home := trimmedHome w
  match w.homeDirRes.err with
  | some e => ([PEvent.cmd ("echo $HOME")], ("", some e))
  | none =>
    ([PEvent.cmd ("echo $HOME"), PEvent.cmd ("mkdir -p " ++ home ++ "/pf9")], (home, none))

/-- removeTempDirAndInstaller: delete the temp extraction directory, the
downloaded installer script and the legacy install log; each failure is
only logged. -/
def removeTempDirAndInstaller (homeDir : String) : List PEvent :=
  [PEvent.cmd ("rm -rf " ++ homeDir ++ "/pf9/pf9-install-*"),
   PEvent.cmd ("rm -rf " ++ homeDir ++ "/pf9/installer.sh"),
   PEvent.cmd ("rm -rf " ++ homeDir ++ "/pf9/agent_install")]

/-- Installer invocation command line (without install options): proxy or
no-proxy form. -/
def installerBaseCmd (ctx : Config) (homeDir : String) : String :=
  if ctx.proxyURL == "" then homeDir ++ "/pf9/installer.sh --no-proxy --skip-os-check --no-ntp"
  else homeDir ++ "/pf9/installer.sh --proxy " ++ ctx.proxyURL ++ " --skip-os-check --no-ntp"

/-- installHostAgentCertless: download the certless installer, mark it
executable, invoke it (remote single-string or local argv form), then
always run the artifact cleanup, and translate a non-zero exit code. -/
def installHostAgentCertless (ctx : Config) (isRemote : Bool) (regionURL : String)
    (auth : KeystoneAuth) (hostOS : String) (w : InstallWorld) : List PEvent × Option String :=
  let url := certlessUrl regionURL hostOS
  let insecureDownload := if ctx.allowInsecure then "-k" else ""
  match createDirToDownloadInstaller w with
  | (tDir, (_, some e)) => (tDir, some e)
  | (tDir, (homeDir, none)) =>
    let t1 := tDir ++ [PEvent.cmd ("curl " ++ insecureDownload ++ " --silent --show-error  "
      ++ url ++ " -o  " ++ homeDir ++ "/pf9/installer.sh")]
    match w.curlErr with
    | some e => (t1, some e)
    | none =>
      let installOptions :=
        if ctx.mfaToken == "" then
          "--no-project --controller=" ++ regionURL ++ " --username=" ++ ctx.username
            ++ " --password=" ++ sq ctx.password
        else
          "--no-project --controller=" ++ regionURL ++ "  --user-token=" ++ sq auth.token
      let t2 := t1 ++ [PEvent.cmd ("chmod +x " ++ homeDir ++ "/pf9/installer.sh")]
      match w.chmodErr with
      | some e => (t2, some e)
      | none =>
        let base := installerBaseCmd ctx homeDir
        let invoke := if isRemote then PEvent.cmdRemote ("bash " ++ base ++ " " ++ installOptions)
          else PEvent.cmd (base ++ " " ++ installOptions)
        let t3 := t2 ++ [invoke] ++ removeTempDirAndInstaller homeDir
        match w.installerExit with
        | some code =>
          (t3 ++ [PEvent.print ("Error : " ++ translateInstallerError code)],
           some ("error while running installer script: " ++ translateInstallerError code))
        | none => (t3, none)

/-- installHostAgentLegacy: token-authenticated download of the legacy
installer, then the same chmod / invoke / cleanup / exit-code translation
sequence, with the output teed to the legacy install log. -/
def installHostAgentLegacy (ctx : Config) (isRemote : Bool) (regionURL : String)
    (auth : KeystoneAuth) (hostOS : String) (w : InstallWorld) : List PEvent × Option String :=
  match createDirToDownloadInstaller w with
  | (tDir, (_, some e)) => (tDir, some e)
  | (tDir, (homeDir, none)) =>
    let installOptions := "--insecure --project-name=" ++ auth.projectID
      ++ " 2>&1 | tee -a " ++ homeDir ++ "/pf9/agent_install"
    let t1 := tDir ++ [PEvent.cmd ("curl --insecure --silent --show-error -H "
      ++ sq ("X-Auth-Token:" ++ auth.token) ++ " " ++ legacyUrl regionURL hostOS
      ++ " -o " ++ homeDir ++ "/pf9/installer.sh")]
    match w.curlErr with
    | some e => (t1, some e)
    | none =>
      let t2 := t1 ++ [PEvent.cmd ("chmod +x " ++ homeDir ++ "/pf9/installer.sh")]
      match w.chmodErr with
      | some e => (t2, some e)
      | none =>
        let base := installerBaseCmd ctx homeDir
        let invoke := if isRemote then PEvent.cmdRemote ("bash " ++ base ++ " " ++ installOptions)
          else PEvent.cmd (base ++ " " ++ installOptions)
        let t3 := t2 ++ [invoke] ++ removeTempDirAndInstaller homeDir
        match w.installerExit with
        | some code =>
          (t3 ++ [PEvent.print ("Error : " ++ translateInstallerError code)],
           some ("error while running installer script: " ++ translateInstallerError code))
        | none => (t3, none)

/-- installHostAgent: fetch the region FQDN, issue the discovery GET and
branch purely on the HTTP status: 404 runs the legacy variant, 200 the
certless variant, anything else is an error with no installer attempted.
The third component is the `HostAgent` package-level variable (0 until the
probe answers, then the status code). -/
def installHostAgent (ctx : Config) (isRemote : Bool) (auth : KeystoneAuth) (hostOS : String)
    (w : InstallWorld) : List PEvent × Option String × Nat :=
  match w.regionFetch.err with
  | some e => ([], (some ("Unable to fetch URL: " ++ e), 0))
  | none =>
    let regionURL := w.regionFetch.out
    match w.newReqErr with
    | some e => ([], (some ("Unable to create a http request: " ++ e), 0))
    | none =>
      let t0 := [PEvent.httpGet (certlessUrl regionURL hostOS)]
      match w.discovery with
      | none => (t0, (some ("Unable to send a request to client"), 0))
      | some status =>
        if status == 404 then
          let r := installHostAgentLegacy ctx isRemote regionURL auth hostOS w
          (t0 ++ r.1, (r.2, status))
        else if status == 200 then
          let r := installHostAgentCertless ctx isRemote regionURL auth hostOS w
          (t0 ++ r.1, (r.2, status))
        else
          (t0, (some ("Invalid status code when identifiying hostagent type: " ++ toString status),
            status))

/-- Oracle for one PrepNode run.  `dpkgLockFree` models the result of
`debian.CheckIfdpkgISLock` (its command is not under src/).
`pf9Packages` models `util.Pf9Packages` (the fixed package list, not under
src/) and `pkgQueryOut` the per-package query output. -/
structure PrepWorld where
  platform : PlatformWorld
  dpkgLockFree : Bool
  uuStatus : ExecResult
  uuEnabled : ExecResult
  pf9Packages : List String
  pkgQueryOut : String → String
  install : InstallWorld
  hostIdRes : ExecResult
  authorizeErr : Option String

/-- StatusUnattendedUpdates: `systemctl is-active unattended-upgrades`;
active unless the trimmed output contains "inactive" (errors only logged). -/
def StatusUnattendedUpdates (w : PrepWorld) : List PEvent × Bool :=
  ([PEvent.cmd ("systemctl is-active unattended-upgrades")],
   !(goContains (goTrimSpace w.uuStatus.out) ("inactive")))

/-- IsEnabledUnattendedUpdates: `systemctl is-enabled unattended-upgrades`;
enabled iff the trimmed output contains "enabled" (errors only logged). -/
def IsEnabledUnattendedUpdates (w : PrepWorld) : List PEvent × Bool :=
  ([PEvent.cmd ("systemctl is-enabled unattended-upgrades")],
   goContains (goTrimSpace w.uuEnabled.out) ("enabled"))

/-- StopUnattendedUpdates (failure only logged). -/
def StopUnattendedUpdates : List PEvent := [PEvent.cmd ("systemctl stop unattended-upgrades")]

/-- StartUnattendedUpdates (failure only logged). -/
def StartUnattendedUpdates : List PEvent := [PEvent.cmd ("systemctl start unattended-upgrades")]

/-- DisableUnattendedUpdates (failure only logged). -/
def DisableUnattendedUpdates : List PEvent := [PEvent.cmd ("systemctl disable unattended-upgrades")]

/-- EnableUnattendedUpdates (failure only logged). -/
def EnableUnattendedUpdates : List PEvent := [PEvent.cmd ("systemctl enable unattended-upgrades")]

/-- Family-specific package query for one pf9 package. -/
def pkgQueryCmd (hostOS p : String) : String :=
  if hostOS == "debian" then "dpkg -l | \x7b grep -i " ++ sq p ++ " || true; \x7d"
  else "yum list installed | \x7b grep -i " ++ sq p ++ " || true; \x7d"

/-- Loop body of pf9PackagesPresent: query each package until the first
non-empty output. -/
def pf9PackagesPresentAux (hostOS : String) (q : String → String) :
    List String → List PEvent × Bool
  | [] => ([], false)
  | p :: rest =>
    if q p == "" then
      let r := pf9PackagesPresentAux hostOS q rest
      (PEvent.cmd (pkgQueryCmd hostOS p) :: r.1, r.2)
    else ([PEvent.cmd (pkgQueryCmd hostOS p)], true)

/-- pf9PackagesPresent over the modelled package list. -/
def pf9PackagesPresent (hostOS : String) (w : PrepWorld) : List PEvent × Bool :=
  pf9PackagesPresentAux hostOS w.pkgQueryOut w.pf9Packages

/-- Host-identity extraction command. -/
def hostIdExtractCmd : String :=
  "grep host_id /etc/pf9/host_id.conf | cut -d " ++ sq ("=") ++ " -f2"

/-- Guidance message when pf9 packages are already present. -/
def packagesPresentMsg : String :=
  "\n\nPlatform9 packages already present on the host."
  ++ "\nPlease uninstall these packages if you want to prep the node again.\n"
  ++ "Instructions to uninstall these are at:"
  ++ "\nhttps://docs.platform9.com/kubernetes/pmk-cli-unistall-hostagent"

/-- prepMain: PrepNode from the package-presence check onward (everything
after the debian-specific block): fail fast if pf9 packages are present,
install the host agent, extract the host identity, then authorize unless
`skipKube`.  In the source, when the extraction command succeeds with
empty trimmed output the error branch is taken with a nil `err` and
`err.Error()` is called on it — a nil-pointer dereference, modelled as
`GoResult.panicked` (before the segment event of that branch is sent). -/
def prepMain (ctx : Config) (isRemote skipKube : Bool) (auth : KeystoneAuth) (hostOS : String)
    (w : PrepWorld) : List PEvent × GoResult :=
  let pk := pf9PackagesPresent hostOS w
  if pk.2 then
    (pk.1 ++ [PEvent.segment], GoResult.err packagesPresentMsg)
  else
    let t1 := pk.1 ++ [PEvent.segment]
    let inst := installHostAgent ctx isRemote auth hostOS w.install
    match inst.2.1 with
    | some e => (t1 ++ inst.1 ++ [PEvent.segment],
        GoResult.err ("Error: Unable to install hostagent. " ++ e))
    | none =>
      let tPrint :=
        if inst.2.2 == 200 then [PEvent.print ("Platform9 packages installed successfully")]
        else if inst.2.2 == 404 then [PEvent.print ("Hostagent installed successfully")]
        else []
      let t2 := t1 ++ inst.1 ++ tPrint ++ [PEvent.segment, PEvent.cmd hostIdExtractCmd]
      let output := goTrimSpace w.hostIdRes.out
      match w.hostIdRes.err with
      | some e =>
        (t2 ++ [PEvent.segment], GoResult.err ("Error: Unable to fetch host ID. " ++ e))
      | none =>
        if output == "" then (t2, GoResult.panicked)
        else
          let t3 := t2 ++ [PEvent.print ("Initialised host successfully")]
          if skipKube then (t3 ++ [PEvent.segment], GoResult.ok)
          else
            let t4 := t3 ++ [PEvent.apiAuthorizeHost]
            match w.authorizeErr with
            | some e =>
              (t4 ++ [PEvent.segment], GoResult.err ("Error: Unable to authorise host. " ++ e))
            | none =>
              (t4 ++ [PEvent.segment,
                PEvent.print ("Host successfully attached to the Platform9 control-plane")],
               GoResult.ok)

/-- PrepNode: validate the platform, then on debian check the dpkg lock and
conditionally stop/disable unattended upgrades, registering the matching
restore actions with `defer` (they run on every exit path, LIFO, including
the panicking one), then run `prepMain`. -/
def PrepNode (ctx : Config) (isRemote skipKube : Bool) (auth : KeystoneAuth) (w : PrepWorld) :
    List PEvent × GoResult :=
  let t0 := [PEvent.segment]
  match ValidatePlatform w.platform with
  | (_, some e) =>
    (t0 ++ [PEvent.cmd ("cat /etc/os-release"), PEvent.segment],
     GoResult.err ("Error: Invalid host OS. " ++ e))
  | (hostOS, none) =>
    let tV := t0 ++ [PEvent.cmd ("cat /etc/os-release")]
    if hostOS == "debian" then
      -- debian.CheckIfdpkgISLock runs first; its result is tested after the
      -- unattended-upgrades block (command not under src/, oracle only)
      let st := StatusUnattendedUpdates w
      if st.2 then
        let en := IsEnabledUnattendedUpdates w
        if en.2 then
          let body :=
            if !w.dpkgLockFree then ([], GoResult.err ("Dpkg is under lock"))
            else prepMain ctx isRemote skipKube auth hostOS w
          (tV ++ st.1 ++ StopUnattendedUpdates ++ en.1 ++ DisableUnattendedUpdates
            ++ body.1 ++ EnableUnattendedUpdates ++ StartUnattendedUpdates, body.2)
        else
          let body :=
            if !w.dpkgLockFree then ([], GoResult.err ("Dpkg is under lock"))
            else prepMain ctx isRemote skipKube auth hostOS w
          (tV ++ st.1 ++ StopUnattendedUpdates ++ en.1 ++ body.1 ++ StartUnattendedUpdates,
           body.2)
      else
        if !w.dpkgLockFree then (tV ++ st.1, GoResult.err ("Dpkg is under lock"))
        else
          let body := prepMain ctx isRemote skipKube auth hostOS w
          (tV ++ st.1 ++ body.1, body.2)
    else
      let body := prepMain ctx isRemote skipKube auth hostOS w
      (tV ++ body.1, body.2)

/-! ## Attach orchestrator (src/cmd/attachNode.go) -/

/-- Observable action of an attach-node run. -/
inductive AEvent where
  | cmd (s : String)
  | apiGetAuth
  | apiCheckCluster
  | apiAttach (role : String)
  | segment
  | print (s : String)
deriving DecidableEq

/-- Oracle for one attach-node run.  `resolveOut` gives the raw stdout of
the per-IP resmgr curl; the two attach errors are only logged. -/
structure AttachWorld where
  remoteInvalid : Bool
  loadCfgErr : Option String
  executorErr : Option String
  clientErr : Option String
  authErr : Option String
  resolveOut : String → String
  clusterUuid : String
  statusRes : ExecResult
  attachWorkerErr : Option String
  attachMasterErr : Option String

/-- Per-IP host-identity resolution command (the quoting mirrors the Go
format string: token and IP are embedded in double quotes, the jq filter
in single quotes, with a trailing space). -/
def resolveCmd (fqdn token ip : String) : String :=
  "curl -sH \"X-Auth-Token: " ++ token ++ "\" -X GET " ++ fqdn
  ++ "/resmgr/v1/hosts | jq -r "
  ++ sq (".[] | select(.info.responding==true) | select(.extensions.ip_address.data[]==(\""
         ++ ip ++ "\")) | .id") ++ " "

/-- Resolved host id for one IP: trimmed output of the resolve command. -/
def resolvedId (w : AttachWorld) (ip : String) : String :=
  goTrimSpace (goTrimCutset (w.resolveOut ip) ['\n'])

/-- hostId: resolve each IP in order, aborting with an error at the first
IP whose trimmed output is empty (returning the ids resolved so far). -/
def hostId (w : AttachWorld) (fqdn token : String) :
    List String → List AEvent × List String × Option String
  | [] => ([], ([], none))
  | ip :: rest =>
    let ev := AEvent.cmd (resolveCmd fqdn token ip)
    let hid := resolvedId w ip
    if hid == "" then
      ([ev], ([], some ("Unable to find host with IP \"" ++ ip
        ++ "\" please try again or run prep-node first")))
    else
      let r := hostId w fqdn token rest
      (ev :: r.1, (hid :: r.2.1, r.2.2))

/-- cluster_Status query command. -/
def clusterStatusCmd (fqdn token projectID clusterID : String) : String :=
  "curl -sH \"X-Auth-Token: " ++ token ++ "\" -X GET " ++ fqdn ++ "/qbert/v3/"
  ++ projectID ++ "/clusters/" ++ clusterID ++ " | jq " ++ sq (".status") ++ " "

/-- cluster_Status: run the status query; an executor error is fatal
(`zap.S().Fatalf` inside the helper), else the output trimmed of
newlines/quotes and whitespace. -/
def cluster_Status (w : AttachWorld) (fqdn token projectID clusterID : String) :
    List AEvent × String × Bool :=
  let ev := AEvent.cmd (clusterStatusCmd fqdn token projectID clusterID)
  match w.statusRes.err with
  | some _ => ([ev], ("", true))
  | none => ([ev], (goTrimSpace (goTrimCutset w.statusRes.out ['\n', '"']), false))

/-- attachNodeRun: load config, resolve master then worker IPs (each
resolution failure is fatal before any attach), confirm the cluster and
its status, then attach workers first and masters second; each role-group
attach failure is logged but does not abort the other. -/
def attachNodeRun (w : AttachWorld) (fqdn : String) (auth : KeystoneAuth)
    (masterIPs workerIPs : List String) : List AEvent × Outcome :=
  if w.remoteInvalid then
    ([], Outcome.fatal ("Invalid remote node config (Username/Password/IP), use "
      ++ sq ("single quotes") ++ " to pass password"))
  else
  match w.loadCfgErr with
  | some e => ([], Outcome.fatal ("Unable to load the context: " ++ e))
  | none =>
  let t0 := [AEvent.print ("Loaded Config Successfully")]
  match w.executorErr with
  | some e => (t0, Outcome.fatal ("Unable to create executor: " ++ e))
  | none =>
  match w.clientErr with
  | some e => (t0, Outcome.fatal ("Unable to create client: " ++ e))
  | none =>
  if masterIPs.isEmpty && workerIPs.isEmpty then
    (t0, Outcome.fatal ("No nodes were specified to be attached to the cluster"))
  else
  let t1 := t0 ++ [AEvent.apiGetAuth]
  let rm := if masterIPs.isEmpty then ([], ([], none))
    else hostId w fqdn auth.token masterIPs
  match rm.2.2 with
  | some e => (t1 ++ rm.1, Outcome.fatal e)
  | none =>
  let masterHostIds := rm.2.1
  let rw := if workerIPs.isEmpty then ([], ([], none))
    else hostId w fqdn auth.token workerIPs
  match rw.2.2 with
  | some e => (t1 ++ rm.1 ++ rw.1, Outcome.fatal e)
  | none =>
  let workerHostIds := rw.2.1
  let t2 := t1 ++ rm.1 ++ rw.1 ++ [AEvent.apiCheckCluster]
  let cs := cluster_Status w fqdn auth.token auth.projectID w.clusterUuid
  if cs.2.2 then (t2 ++ cs.1, Outcome.fatal ("Unable to get cluster status : "))
  else
  let clusterStatus := cs.2.1
  let t3 := t2 ++ cs.1
  if clusterStatus == "ok" then
    let t4 := t3 ++ [AEvent.segment]
    let t5 := t4 ++ (if workerHostIds.isEmpty then []
      else [AEvent.apiAttach ("worker"), AEvent.segment])
    let t6 := t5 ++ (if masterHostIds.isEmpty then []
      else [AEvent.apiAttach ("master"), AEvent.segment])
    (t6, Outcome.done)
  else
    (t3, Outcome.fatal ("Cluster is not ready. cluster status is " ++ clusterStatus))

/-- Classifier for role-group attach API calls. -/
def isAttachCall (e : AEvent) : Bool :=
  match e with
  | AEvent.apiAttach _ => true
  | _ => false

/-! ## Event classifiers and concrete worlds used by the claim theorems -/

/-- Classifier for the discovery HTTP probe. -/
def isDiscoveryProbe (e : PEvent) : Bool :=
  match e with
  | PEvent.httpGet _ => true
  | _ => false

/-- Classifier for artifact-cleanup deletions (the `rm -rf` commands of
removeTempDirAndInstaller). -/
def isCleanupRm (e : PEvent) : Bool :=
  match e with
  | PEvent.cmd s => strPrefixOf ("rm -rf ") s
  | _ => false

/-- Shell command stopping the unattended-upgrades service. -/
def uuStopCmd : String := "systemctl stop unattended-upgrades"

/-- Shell command starting the unattended-upgrades service. -/
def uuStartCmd : String := "systemctl start unattended-upgrades"

/-- Shell command disabling the unattended-upgrades service. -/
def uuDisableCmd : String := "systemctl disable unattended-upgrades"

/-- Shell command enabling the unattended-upgrades service. -/
def uuEnableCmd : String := "systemctl enable unattended-upgrades"

/-- Classifier for the four unattended-upgrades mutations (stop / start /
disable / enable); the two status queries are not mutations. -/
def isUUMutation (e : PEvent) : Bool :=
  match e with
  | PEvent.cmd s =>
    decide (s = uuStopCmd) || decide (s = uuStartCmd)
    || decide (s = uuDisableCmd) || decide (s = uuEnableCmd)
  | _ => false

/-- Whether the initial is-active probe reported the service active. -/
def uuActive (w : PrepWorld) : Bool := !(goContains (goTrimSpace w.uuStatus.out) ("inactive"))

/-- Whether the is-enabled probe reported the service enabled. -/
def uuEnabledB (w : PrepWorld) : Bool := goContains (goTrimSpace w.uuEnabled.out) ("enabled")

/-- Concrete configuration used by witnesses. -/
def ctx0 : Config :=
  { fqdn := "pf9.example.com", region := "r1", username := "admin", password := "pw",
    mfaToken := "", proxyURL := "", allowInsecure := false }

/-- Concrete session used by witnesses. -/
def auth0 : KeystoneAuth := { token := "tok-1", projectID := "proj-1" }

/-- Platform oracle of an ubuntu host (debian family). -/
def debianPlatform : PlatformWorld :=
  { osRelease := { out := "NAME=\"Ubuntu\"\nVERSION=\"20.04\"", err := none },
    centosVersion := { out := "", err := some ("not centos") },
    debianVersion := { out := "debian", err := none } }

/-- Platform oracle of a centos host (redhat family). -/
def centosPlatform : PlatformWorld :=
  { osRelease := { out := "NAME=\"CentOS Linux\"", err := none },
    centosVersion := { out := "redhat", err := none },
    debianVersion := { out := "", err := some ("not debian") } }

/-- Platform oracle of a readable release file matching no known family. -/
def unknownPlatform : PlatformWorld :=
  { osRelease := { out := "NAME=\"SLES\"\nVERSION=\"15\"", err := none },
    centosVersion := { out := "", err := some ("not centos") },
    debianVersion := { out := "", err := some ("not debian") } }

/-- Installer oracle where every sub-step succeeds (certless discovery). -/
def installOk : InstallWorld :=
  { regionFetch := { out := "region.example.com", err := none }, newReqErr := none,
    discovery := some 200, homeDirRes := { out := "/root\n", err := none },
    mkdirErr := none, curlErr := none, chmodErr := none, installerExit := none }

/-- Installer oracle where the home-directory query fails. -/
def installHomeFail : InstallWorld :=
  { regionFetch := { out := "region.example.com", err := none }, newReqErr := none,
    discovery := some 200, homeDirRes := { out := "", err := some ("echo failed") },
    mkdirErr := none, curlErr := none, chmodErr := none, installerExit := none }

/-- Installer oracle where the chmod on the downloaded installer fails. -/
def installChmodFail : InstallWorld :=
  { regionFetch := { out := "region.example.com", err := none }, newReqErr := none,
    discovery := some 200, homeDirRes := { out := "/root\n", err := none },
    mkdirErr := none, curlErr := none, chmodErr := some ("chmod failed"),
    installerExit := none }

/-- Installer oracle where the certless download itself fails. -/
def installCurlFail : InstallWorld :=
  { regionFetch := { out := "region.example.com", err := none }, newReqErr := none,
    discovery := some 200, homeDirRes := { out := "/root\n", err := none },
    mkdirErr := none, curlErr := some ("curl: (7) failed to connect"), chmodErr := none,
    installerExit := none }

/-- Installer oracle where the discovery probe answers 500. -/
def installBadStatus : InstallWorld :=
  { regionFetch := { out := "region.example.com", err := none }, newReqErr := none,
    discovery := some 500, homeDirRes := { out := "/root\n", err := none },
    mkdirErr := none, curlErr := none, chmodErr := none, installerExit := none }

/-- Decommission oracle: agent present, node attached to cluster c1, one
service stop failing, everything else succeeding. -/
def decomMemberWorld : DecomWorld :=
  { executorErr := none, clientErr := none, authErr := none,
    hostnameRes := { out := "10.0.0.5 192.168.0.5\n", err := none },
    platform := debianPlatform, hostIDs := ["h-1"], agentQueryErr := none,
    nodeClusterName := "c1", nodeClusterUuid := "u1", detachErr := none, deauthErr := none,
    stopHostagentErr := some ("stop failed"), stopNodeletdErr := none, stopKubeletErr := none,
    purgeErr := none, files := ["/var/log/pf9/a.log", "/var/log/pf9/b.log"] }

/-- Decommission oracle: local agent package absent (query errors). -/
def decomAbsentWorld : DecomWorld :=
  { executorErr := none, clientErr := none, authErr := none,
    hostnameRes := { out := "10.0.0.6\n", err := none },
    platform := debianPlatform, hostIDs := ["h-2"], agentQueryErr := some ("not installed"),
    nodeClusterName := "", nodeClusterUuid := "", detachErr := none, deauthErr := none,
    stopHostagentErr := none, stopNodeletdErr := none, stopKubeletErr := none,
    purgeErr := none, files := ["/var/log/pf9/a.log"] }

/-- Decommission oracle: agent present but no host identity on the control
plane. -/
def decomNoIdWorld : DecomWorld :=
  { executorErr := none, clientErr := none, authErr := none,
    hostnameRes := { out := "10.0.0.7\n", err := none },
    platform := centosPlatform, hostIDs := [], agentQueryErr := none,
    nodeClusterName := "", nodeClusterUuid := "", detachErr := none, deauthErr := none,
    stopHostagentErr := none, stopNodeletdErr := none, stopKubeletErr := none,
    purgeErr := none, files := ["/var/log/pf9/a.log"] }

/-- Prep oracle reaching host-id extraction with a successful command whose
trimmed output is empty (whitespace only). -/
def prepPanicWorld : PrepWorld :=
  { platform := centosPlatform, dpkgLockFree := true,
    uuStatus := { out := "inactive\n", err := none },
    uuEnabled := { out := "disabled\n", err := none },
    pf9Packages := ["pf9-hostagent", "pf9-comms"], pkgQueryOut := fun _ => "",
    install := installOk, hostIdRes := { out := " \n", err := none }, authorizeErr := none }

/-- Prep oracle on a debian host with unattended-upgrades active and
enabled, every step succeeding. -/
def prepUUWorld : PrepWorld :=
  { platform := debianPlatform, dpkgLockFree := true,
    uuStatus := { out := "active\n", err := none },
    uuEnabled := { out := "enabled\n", err := none },
    pf9Packages := ["pf9-hostagent"], pkgQueryOut := fun _ => "",
    install := installOk, hostIdRes := { out := "host-uuid-1\n", err := none },
    authorizeErr := none }

/-- Attach oracle: two resolvable IPs, ready cluster, worker attach failing
(logged only). -/
def attachOkWorld : AttachWorld :=
  { remoteInvalid := false, loadCfgErr := none, executorErr := none, clientErr := none,
    authErr := none,
    resolveOut := fun ip =>
      if ip == "10.0.0.1" then "id-master-1\n"
      else if ip == "10.0.0.2" then "id-worker-1\n" else "",
    clusterUuid := "cu-1", statusRes := { out := "\"ok\"\n", err := none },
    attachWorkerErr := some ("api error"), attachMasterErr := none }

/-! ## Helper lemmas on the string model -/

theorem strPrefixAux_self_append (p x : List Char) : strPrefixAux p (p ++ x) = true := by
  induction p with
  | nil => rfl
  | cons a as ih => simp [strPrefixAux, ih]

theorem str_lit_app_ne (p x t : String) (h : strPrefixAux p.data t.data = false) :
    p ++ x ≠ t := by
  intro he
  rw [← he, String.data_append, strPrefixAux_self_append] at h
  exact Bool.noConfusion h

theorem strInfixAux_self_append (m x : List Char) : strInfixAux m (m ++ x) = true := by
  cases m with
  | nil =>
    cases x with
    | nil => rfl
    | cons c cs => simp [strInfixAux, strPrefixAux]
  | cons c cs =>
    simp only [strInfixAux, Bool.or_eq_true]
    left
    exact strPrefixAux_self_append (c :: cs) x

theorem strInfixAux_mid (m x : List Char) :
    ∀ a : List Char, strInfixAux m (a ++ (m ++ x)) = true := by
  intro a
  induction a with
  | nil => simpa using strInfixAux_self_append m x
  | cons c cs ih =>
    cases m with
    | nil =>
      simp only [List.cons_append, strInfixAux, Bool.or_eq_true]
      left
      rfl
    | cons d ds =>
      simp only [List.cons_append, strInfixAux, Bool.or_eq_true] at ih ⊢
      right
      exact ih

theorem str_app_ne_of_infix (a m x t : String) (h : strInfixAux m.data t.data = false) :
    a ++ (m ++ x) ≠ t := by
  intro he
  rw [← he, String.data_append, String.data_append, strInfixAux_mid] at h
  exact Bool.noConfusion h

/-! ## C3 — platform detection error conditions -/

/-- Claim C3 counterexample: a readable release file whose content matches
no family marker makes `ValidatePlatform` return NO error (with the empty
descriptor), while the claim's iff requires a `DetectionError` in that
case. -/
theorem c3_counterexample :
    unknownPlatform.osRelease.err = none
    ∧ goContains (goToLower unknownPlatform.osRelease.out) centosMarker = false
    ∧ goContains (goToLower unknownPlatform.osRelease.out) redhatMarker = false
    ∧ goContains (goToLower unknownPlatform.osRelease.out) ubuntuMarker = false
    ∧ ValidatePlatform unknownPlatform = ("", none) := by
  refine ⟨rfl, ?_, ?_, ?_, ?_⟩ <;> decide

/-- Claim C3 (amended): `ValidatePlatform` returns an error if and only if
the release-metadata file cannot be read; content matching no family
marker — and a failing family version query — return the empty descriptor
with no error. -/
theorem c3_detection_error_iff_unreadable (w : PlatformWorld) :
    (ValidatePlatform w).2.isSome ↔ w.osRelease.err.isSome := by
  rcases w with ⟨⟨o, e⟩, ⟨co, ce⟩, ⟨dbo, dbe⟩⟩
  cases e <;> cases ce <;> cases dbe <;>
    simp only [ValidatePlatform, OpenOSReleaseFile, Option.isSome] <;>
    split_ifs <;> simp

/-! ## C6 — installer exit-code translation -/

/-- Claim C6: the exit-code translation is total — codes present in the
installer-error table map to their documented message, any other code maps
to the generic fallback, and the certless install step surfaces exactly
this translation in its error; the translation itself never fails. -/
theorem c6_exit_code_translation_total (code : Nat) (msg : String) :
    (List.lookup code InstallerErrors = some msg → translateInstallerError code = msg)
    ∧ (List.lookup code InstallerErrors = none →
        translateInstallerError code = genericInstallerError)
    ∧ ∀ (ctx : Config) (isRemote : Bool) (regionURL : String) (auth : KeystoneAuth)
        (hostOS : String) (w : InstallWorld), w.homeDirRes.err = none → w.curlErr = none →
        w.chmodErr = none → w.installerExit = some code →
        (installHostAgentCertless ctx isRemote regionURL auth hostOS w).2 =
          some ("error while running installer script: " ++ translateInstallerError code) := by
  refine ⟨?_, ?_, ?_⟩
  · intro h
    simp [translateInstallerError, h]
  · intro h
    simp [translateInstallerError, h]
  · intro ctx isRemote regionURL auth hostOS w hh hc hch hie
    cases isRemote <;>
      simp [installHostAgentCertless, createDirToDownloadInstaller, hh, hc, hch, hie]

/-- Claim C6 witness: translation evaluated at a mapped code and an
unmapped code, and the certless error surfaced at exit code 3. -/
theorem c6_witness :
    translateInstallerError 3 = "Platform9 host agent is already installed"
    ∧ translateInstallerError 999 = genericInstallerError
    ∧ (installHostAgentCertless ctx0 false ("region.example.com") auth0 ("debian")
        { installOk with installerExit := some 3 }).2 =
        some ("error while running installer script: " ++ translateInstallerError 3) := by
  refine ⟨(c6_exit_code_translation_total 3 ("Platform9 host agent is already installed")).1
      (by decide),
    (c6_exit_code_translation_total 999 ("")).2.1 (by decide),
    (c6_exit_code_translation_total 3 ("")).2.2 ctx0 false ("region.example.com") auth0
      ("debian") { installOk with installerExit := some 3 } rfl rfl rfl rfl⟩

/-! ## C1 — installer variant selection -/

theorem certless_no_probe (ctx : Config) (isRemote : Bool) (regionURL : String)
    (auth : KeystoneAuth) (hostOS : String) (w : InstallWorld) :
    List.countP isDiscoveryProbe
      (installHostAgentCertless ctx isRemote regionURL auth hostOS w).1 = 0 := by
  rcases hh : w.homeDirRes.err with _ | e <;>
  rcases hc : w.curlErr with _ | e1 <;>
  rcases hch : w.chmodErr with _ | e2 <;>
  rcases hie : w.installerExit with _ | code <;>
  cases isRemote <;>
  simp [installHostAgentCertless, createDirToDownloadInstaller, removeTempDirAndInstaller,
    hh, hc, hch, hie, List.countP_cons, List.countP_append, isDiscoveryProbe]

theorem legacy_no_probe (ctx : Config) (isRemote : Bool) (regionURL : String)
    (auth : KeystoneAuth) (hostOS : String) (w : InstallWorld) :
    List.countP isDiscoveryProbe
      (installHostAgentLegacy ctx isRemote regionURL auth hostOS w).1 = 0 := by
  rcases hh : w.homeDirRes.err with _ | e <;>
  rcases hc : w.curlErr with _ | e1 <;>
  rcases hch : w.chmodErr with _ | e2 <;>
  rcases hie : w.installerExit with _ | code <;>
  cases isRemote <;>
  simp [installHostAgentLegacy, createDirToDownloadInstaller, removeTempDirAndInstaller,
    hh, hc, hch, hie, List.countP_cons, List.countP_append, isDiscoveryProbe]

/-- Claim C1: installer-variant selection issues exactly one discovery GET
and branches purely on its HTTP status: 200 runs the certless path, 404
runs the legacy path, and any other status fails the run with a trace of
only the probe — no installer command downloaded or executed. -/
theorem c1_installer_variant_selection (ctx : Config) (isRemote : Bool) (auth : KeystoneAuth)
    (hostOS : String) (w : InstallWorld) (status : Nat)
    (hreg : w.regionFetch.err = none) (hreq : w.newReqErr = none)
    (hdisc : w.discovery = some status) :
    List.countP isDiscoveryProbe (installHostAgent ctx isRemote auth hostOS w).1 = 1
    ∧ (status = 200 →
        installHostAgent ctx isRemote auth hostOS w =
          (PEvent.httpGet (certlessUrl w.regionFetch.out hostOS)
             :: (installHostAgentCertless ctx isRemote w.regionFetch.out auth hostOS w).1,
           ((installHostAgentCertless ctx isRemote w.regionFetch.out auth hostOS w).2, 200)))
    ∧ (status = 404 →
        installHostAgent ctx isRemote auth hostOS w =
          (PEvent.httpGet (certlessUrl w.regionFetch.out hostOS)
             :: (installHostAgentLegacy ctx isRemote w.regionFetch.out auth hostOS w).1,
           ((installHostAgentLegacy ctx isRemote w.regionFetch.out auth hostOS w).2, 404)))
    ∧ (status ≠ 200 → status ≠ 404 →
        installHostAgent ctx isRemote auth hostOS w =
          ([PEvent.httpGet (certlessUrl w.regionFetch.out hostOS)],
           (some ("Invalid status code when identifiying hostagent type: " ++ toString status),
            status))) := by
  refine ⟨?_, ?_, ?_, ?_⟩
  · by_cases h4 : status = 404
    · subst h4
      simp [installHostAgent, hreg, hreq, hdisc, List.countP_cons, List.countP_append,
        isDiscoveryProbe, legacy_no_probe]
    · by_cases h2 : status = 200
      · subst h2
        simp [installHostAgent, hreg, hreq, hdisc, List.countP_cons, List.countP_append,
          isDiscoveryProbe, certless_no_probe]
      · simp [installHostAgent, hreg, hreq, hdisc, h4, h2, List.countP_cons, isDiscoveryProbe]
  · intro h2
    subst h2
    simp [installHostAgent, hreg, hreq, hdisc]
  · intro h4
    subst h4
    simp [installHostAgent, hreg, hreq, hdisc]
  · intro h2 h4
    simp [installHostAgent, hreg, hreq, hdisc, h2, h4]

/-- Claim C1 witness: a 500 discovery status at a concrete world — one
probe, an error, and nothing else in the trace. -/
theorem c1_witness :
    List.countP isDiscoveryProbe
      (installHostAgent ctx0 false auth0 ("debian") installBadStatus).1 = 1
    ∧ installHostAgent ctx0 false auth0 ("debian") installBadStatus =
        ([PEvent.httpGet (certlessUrl installBadStatus.regionFetch.out ("debian"))],
         (some ("Invalid status code when identifiying hostagent type: " ++ toString 500),
          500)) := by
  have h := c1_installer_variant_selection ctx0 false auth0 ("debian") installBadStatus 500
    rfl rfl rfl
  exact ⟨h.1, h.2.2.2 (by decide) (by decide)⟩

/-! ## C7 — cleanup of transient installer artifacts -/

/-- Claim C7 counterexample: when the certless download fails, the step
returns without attempting any artifact deletion — an exit path with no
cleanup, contradicting "on every exit path ... removal is unconditionally
attempted". -/
theorem c7_counterexample :
    (installHostAgentCertless ctx0 false ("region.example.com") auth0 ("debian")
        installCurlFail).2 = some ("curl: (7) failed to connect")
    ∧ List.countP isCleanupRm
        (installHostAgentCertless ctx0 false ("region.example.com") auth0 ("debian")
          installCurlFail).1 = 0 := by
  decide

/-- Claim C7 (amended): cleanup of the transient installer artifacts is
unconditionally attempted on the exit paths from the installer invocation
onward — normal completion and installer failure alike — but every exit
path before the invocation (home-directory query failure, download
failure, chmod failure) returns without attempting cleanup. -/
theorem c7_cleanup_after_invocation (ctx : Config) (isRemote : Bool) (regionURL : String)
    (auth : KeystoneAuth) (hostOS : String) (w : InstallWorld) :
    (w.homeDirRes.err = none → w.curlErr = none → w.chmodErr = none →
      List.IsInfix (removeTempDirAndInstaller (trimmedHome w))
        (installHostAgentCertless ctx isRemote regionURL auth hostOS w).1)
    ∧ (∀ e, w.homeDirRes.err = some e →
        List.countP isCleanupRm
          (installHostAgentCertless ctx isRemote regionURL auth hostOS w).1 = 0
        ∧ (installHostAgentCertless ctx isRemote regionURL auth hostOS w).2 = some e)
    ∧ (∀ e, w.homeDirRes.err = none → w.curlErr = some e →
        List.countP isCleanupRm
          (installHostAgentCertless ctx isRemote regionURL auth hostOS w).1 = 0
        ∧ (installHostAgentCertless ctx isRemote regionURL auth hostOS w).2 = some e)
    ∧ (∀ e, w.homeDirRes.err = none → w.curlErr = none → w.chmodErr = some e →
        List.countP isCleanupRm
          (installHostAgentCertless ctx isRemote regionURL auth hostOS w).1 = 0
        ∧ (installHostAgentCertless ctx isRemote regionURL auth hostOS w).2 = some e) := by
  have h1 : isCleanupRm (PEvent.cmd ("echo $HOME")) = false := by decide
  have h2 : isCleanupRm (PEvent.cmd ("mkdir -p " ++ trimmedHome w ++ "/pf9")) = false := by
    simp only [isCleanupRm, strPrefixOf, String.data_append, List.append_assoc]
    rfl
  have h3 : isCleanupRm (PEvent.cmd ("curl " ++ (if ctx.allowInsecure then "-k" else "")
      ++ " --silent --show-error  " ++ certlessUrl regionURL hostOS ++ " -o  "
      ++ trimmedHome w ++ "/pf9/installer.sh")) = false := by
    simp only [isCleanupRm, strPrefixOf, String.data_append, List.append_assoc]
    rfl
  have h4 : isCleanupRm (PEvent.cmd ("chmod +x " ++ trimmedHome w ++ "/pf9/installer.sh"))
      = false := by
    simp only [isCleanupRm, strPrefixOf, String.data_append, List.append_assoc]
    rfl
  refine ⟨?_, ?_, ?_, ?_⟩
  · intro hh hc hch
    rcases hie : w.installerExit with _ | code <;> cases isRemote <;>
      simp only [installHostAgentCertless, createDirToDownloadInstaller, hh, hc, hch, hie,
        List.append_assoc, List.cons_append, List.nil_append, Bool.false_eq_true, if_false,
        if_true] <;>
    · refine List.infix_cons (List.infix_cons (List.infix_cons (List.infix_cons
        (List.infix_cons ?_))))
      first
      | exact List.infix_refl _
      | exact (List.prefix_append _ _).isInfix
  · intro e hhe
    constructor
    · simp [installHostAgentCertless, createDirToDownloadInstaller, hhe, List.countP_cons, h1]
    · simp [installHostAgentCertless, createDirToDownloadInstaller, hhe]
  · intro e hh hc
    constructor
    · simp only [installHostAgentCertless, createDirToDownloadInstaller, hh, hc,
        List.countP_cons, List.countP_append, List.countP_nil, isCleanupRm]
      simp [isCleanupRm] at h1 h2 h3
      simp [h1, h2, h3]
    · simp [installHostAgentCertless, createDirToDownloadInstaller, hh, hc]
  · intro e hh hc hch
    constructor
    · simp only [installHostAgentCertless, createDirToDownloadInstaller, hh, hc, hch,
        List.countP_cons, List.countP_append, List.countP_nil, isCleanupRm]
      simp [isCleanupRm] at h1 h2 h3 h4
      simp [h1, h2, h3, h4]
    · simp [installHostAgentCertless, createDirToDownloadInstaller, hh, hc, hch]

/-- Claim C7 witness: at a concrete all-success world the three cleanup
deletions are an infix of the certless trace, and at concrete worlds where
the home-directory query, the download, or the chmod fails, no cleanup is
attempted. -/
theorem c7_witness :
    List.IsInfix (removeTempDirAndInstaller (trimmedHome installOk))
      (installHostAgentCertless ctx0 false ("region.example.com") auth0 ("debian") installOk).1
    ∧ List.countP isCleanupRm
        (installHostAgentCertless ctx0 false ("region.example.com") auth0 ("debian")
          installHomeFail).1 = 0
    ∧ List.countP isCleanupRm
        (installHostAgentCertless ctx0 false ("region.example.com") auth0 ("debian")
          installCurlFail).1 = 0
    ∧ List.countP isCleanupRm
        (installHostAgentCertless ctx0 false ("region.example.com") auth0 ("debian")
          installChmodFail).1 = 0 := by
  exact ⟨(c7_cleanup_after_invocation ctx0 false ("region.example.com") auth0 ("debian")
      installOk).1 rfl rfl rfl,
    ((c7_cleanup_after_invocation ctx0 false ("region.example.com") auth0 ("debian")
      installHomeFail).2.1 ("echo failed") rfl).1,
    ((c7_cleanup_after_invocation ctx0 false ("region.example.com") auth0 ("debian")
      installCurlFail).2.2.1 ("curl: (7) failed to connect") rfl rfl).1,
    ((c7_cleanup_after_invocation ctx0 false ("region.example.com") auth0 ("debian")
      installChmodFail).2.2.2 ("chmod failed") rfl rfl rfl).1⟩

/-! ## Decommission claims — classifier evaluation lemmas -/

theorem removalEvent_print (s : String) : removalEvent (DEvent.print s) = false := rfl

theorem removalEvent_getAuth : removalEvent DEvent.apiGetAuth = false := rfl

theorem removalEvent_getHostId : removalEvent DEvent.apiGetHostId = false := rfl

theorem removalEvent_getNodeInfo : removalEvent DEvent.apiGetNodeInfo = false := rfl

theorem removalEvent_detach : removalEvent DEvent.apiDetach = true := rfl

theorem removalEvent_deauth : removalEvent DEvent.apiDeauth = true := rfl

theorem removalEvent_hostname : removalEvent (DEvent.cmd ("hostname -I")) = false := by decide

theorem removalEvent_catRelease : removalEvent (DEvent.cmd ("cat /etc/os-release")) = false := by
  decide

theorem removalEvent_stop (s : String) : removalEvent (DEvent.cmd (stopServiceCmd s)) = true := by
  have hd : stopServiceCmd s = "sudo systemctl stop " ++ s := rfl
  simp only [removalEvent, strPrefixOf, hd, String.data_append, strPrefixAux_self_append,
    Bool.true_or]

theorem removalEvent_purge (os : String) : removalEvent (DEvent.cmd (purgeCmd os)) = true := by
  unfold purgeCmd
  by_cases h : os = "debian" <;> simp [h] <;> decide

theorem removalEvent_presence (os : String) :
    removalEvent (DEvent.cmd (presenceCheckCmd os)) = false := by
  unfold presenceCheckCmd
  by_cases h : os = "debian" <;> simp [h] <;> decide

theorem removalEvent_rm (f : String) : removalEvent (rmFileEvent f) = true := by
  have hd : ("rm -rf " ++ f).data = ("rm -rf ").data ++ f.data := String.data_append _ _
  simp only [rmFileEvent, removalEvent, strPrefixOf, hd]
  rfl

theorem removalEvent_rmEtc : removalEvent (DEvent.cmd ("rm -rf " ++ etcDir)) = true := by decide

theorem removalEvent_rmOpt : removalEvent (DEvent.cmd ("rm -rf " ++ optDir)) = true := by decide

theorem removalEvent_rmHome : removalEvent (DEvent.cmd ("rm -rf $HOME/pf9")) = true := by decide

theorem filter_removal_rm (l : List String) :
    List.filter removalEvent (l.map rmFileEvent) = l.map rmFileEvent := by
  induction l with
  | nil => rfl
  | cons a as ih => simp [List.filter_cons, removalEvent_rm, ih]

/-! ## C2 — decommission ordering for a cluster member -/

/-- Claim C2: on a host whose node belongs to a cluster, the removal-event
projection of the decommission trace is exactly detach, then deauthorize,
then the three service stops, then the package purge, then the log-file
deletions — so detach precedes deauthorize precedes agent removal.  The
equation carries no hypothesis on the three service-stop errors or the
purge error: a failed stop never suppresses the purge or the deletions.
A failed detach is fatal with a trace that ends at the detach call, so
deauthorize is never attempted. -/
theorem c2_decommission_order (w : DecomWorld) (removePf9 : Bool) (os : String)
    (hex : w.executorErr = none) (hcl : w.clientErr = none)
    (hhn : w.hostnameRes.err = none)
    (hplat : ValidatePlatform w.platform = (os, none))
    (hagent : w.agentQueryErr = none)
    (hhid : w.hostIDs ≠ [])
    (hmember : w.nodeClusterName ≠ "") :
    (w.detachErr = none → w.deauthErr = none →
      List.filter removalEvent (DecommissionNode w removePf9).1 =
        [DEvent.apiDetach, DEvent.apiDeauth,
         DEvent.cmd (stopServiceCmd ("pf9-hostagent")),
         DEvent.cmd (stopServiceCmd ("pf9-nodeletd")),
         DEvent.cmd (stopServiceCmd ("pf9-kubelet")),
         DEvent.cmd (purgeCmd os)]
        ++ w.files.map rmFileEvent
        ++ (if removePf9 then
              [DEvent.cmd ("rm -rf " ++ etcDir), DEvent.cmd ("rm -rf " ++ optDir),
               DEvent.cmd ("rm -rf $HOME/pf9")]
            else []))
    ∧ (∀ e, w.detachErr = some e →
        DecommissionNode w removePf9 =
          ([DEvent.apiGetAuth, DEvent.cmd ("hostname -I"), DEvent.cmd ("cat /etc/os-release"),
            DEvent.apiGetHostId, DEvent.cmd (presenceCheckCmd os), DEvent.apiGetNodeInfo,
            DEvent.print ("Node is connected to " ++ w.nodeClusterName ++ " cluster"),
            DEvent.print ("Detaching node from cluster..."), DEvent.apiDetach],
           Outcome.fatal ("Failed to detach host from cluster"))
        ∧ ¬ DEvent.apiDeauth ∈ (DecommissionNode w removePf9).1) := by
  have hb : (w.nodeClusterName == "") = false := beq_eq_false_iff_ne.mpr hmember
  rcases hids : w.hostIDs with _ | ⟨h0, hrest⟩
  · exact absurd hids hhid
  constructor
  · intro hdet hdea
    rcases hp : w.purgeErr with _ | pe <;> cases removePf9 <;>
      simp [DecommissionNode, removeHostagent, removePf9Installation, hex, hcl, hhn, hplat,
        hagent, hids, hb, hdet, hdea, hp, List.filter_append, List.filter_cons,
        removalEvent_print, removalEvent_getAuth, removalEvent_getHostId,
        removalEvent_getNodeInfo, removalEvent_detach, removalEvent_deauth,
        removalEvent_hostname, removalEvent_catRelease, removalEvent_stop,
        removalEvent_purge, removalEvent_presence, removalEvent_rmEtc, removalEvent_rmOpt,
        removalEvent_rmHome, filter_removal_rm]
  · intro e hdet
    constructor
    · simp [DecommissionNode, hex, hcl, hhn, hplat, hagent, hids, hb, hdet]
    · simp [DecommissionNode, hex, hcl, hhn, hplat, hagent, hids, hb, hdet]

/-- Claim C2 witness: the ordering equation evaluated at a concrete
cluster-member world in which stopping pf9-hostagent fails. -/
theorem c2_witness :
    List.filter removalEvent (DecommissionNode decomMemberWorld false).1 =
      [DEvent.apiDetach, DEvent.apiDeauth,
       DEvent.cmd (stopServiceCmd ("pf9-hostagent")),
       DEvent.cmd (stopServiceCmd ("pf9-nodeletd")),
       DEvent.cmd (stopServiceCmd ("pf9-kubelet")),
       DEvent.cmd (purgeCmd ("debian"))]
      ++ decomMemberWorld.files.map rmFileEvent := by
  have h := (c2_decommission_order decomMemberWorld false ("debian") rfl rfl rfl (by decide)
    rfl (by decide) (by decide)).1 rfl rfl
  simpa using h

/-! ## C4 — decommission with the agent absent -/

/-- Claim C4 counterexample: with the agent-presence probe failing, the run
still makes control-plane API calls (keystone auth and the resmgr host-id
lookup happen before the probe), contradicting "makes no control-plane API
calls". -/
theorem c4_counterexample :
    decomAbsentWorld.agentQueryErr = some ("not installed")
    ∧ (DecommissionNode decomAbsentWorld false).2 = Outcome.done
    ∧ DEvent.apiGetHostId ∈ (DecommissionNode decomAbsentWorld false).1 := by
  decide

/-- Claim C4 (amended): when the agent-presence probe fails, the run
terminates successfully right after printing the not-connected message —
no removal commands, no node-info / detach / deauthorize calls — but the
authentication and host-identity lookup calls have already been issued
before the probe. -/
theorem c4_absent_agent_no_op (w : DecomWorld) (removePf9 : Bool) (os : String) (e : String)
    (hex : w.executorErr = none) (hcl : w.clientErr = none)
    (hhn : w.hostnameRes.err = none)
    (hplat : ValidatePlatform w.platform = (os, none))
    (hagent : w.agentQueryErr = some e) :
    DecommissionNode w removePf9 =
      ([DEvent.apiGetAuth, DEvent.cmd ("hostname -I"), DEvent.cmd ("cat /etc/os-release"),
        DEvent.apiGetHostId, DEvent.cmd (presenceCheckCmd os),
        DEvent.print ("Host is not connected to Platform9 Management Plane")],
       Outcome.done) := by
  simp [DecommissionNode, hex, hcl, hhn, hplat, hagent]

/-- Claim C4 witness: the amended no-op behavior at a concrete world. -/
theorem c4_witness :
    DecommissionNode decomAbsentWorld false =
      ([DEvent.apiGetAuth, DEvent.cmd ("hostname -I"), DEvent.cmd ("cat /etc/os-release"),
        DEvent.apiGetHostId, DEvent.cmd (presenceCheckCmd ("debian")),
        DEvent.print ("Host is not connected to Platform9 Management Plane")],
       Outcome.done) :=
  c4_absent_agent_no_op decomAbsentWorld false ("debian") ("not installed") rfl rfl rfl
    (by decide) rfl

/-! ## C8 — decommission with no control-plane identity -/

/-- Claim C8: when the host-identity lookup returns an empty list but the
agent package is present, the run removes the agent locally (stops, purge,
log deletions) and never calls node-info, detach or deauthorize, ending
successfully. -/
theorem c8_no_identity_local_removal (w : DecomWorld) (removePf9 : Bool) (os : String)
    (hex : w.executorErr = none) (hcl : w.clientErr = none)
    (hhn : w.hostnameRes.err = none)
    (hplat : ValidatePlatform w.platform = (os, none))
    (hagent : w.agentQueryErr = none)
    (hhid : w.hostIDs = []) :
    (DecommissionNode w removePf9).2 = Outcome.done
    ∧ ¬ DEvent.apiDetach ∈ (DecommissionNode w removePf9).1
    ∧ ¬ DEvent.apiDeauth ∈ (DecommissionNode w removePf9).1
    ∧ ¬ DEvent.apiGetNodeInfo ∈ (DecommissionNode w removePf9).1
    ∧ List.filter removalEvent (DecommissionNode w removePf9).1 =
        [DEvent.cmd (stopServiceCmd ("pf9-hostagent")),
         DEvent.cmd (stopServiceCmd ("pf9-nodeletd")),
         DEvent.cmd (stopServiceCmd ("pf9-kubelet")),
         DEvent.cmd (purgeCmd os)]
        ++ w.files.map rmFileEvent
        ++ (if removePf9 then
              [DEvent.cmd ("rm -rf " ++ etcDir), DEvent.cmd ("rm -rf " ++ optDir),
               DEvent.cmd ("rm -rf $HOME/pf9")]
            else []) := by
  refine ⟨?_, ?_, ?_, ?_, ?_⟩ <;>
  · rcases hp : w.purgeErr with _ | pe <;> cases removePf9 <;>
      simp [DecommissionNode, removeHostagent, removePf9Installation, rmFileEvent, hex, hcl,
        hhn, hplat, hagent, hhid, hp, List.filter_append, List.filter_cons,
        removalEvent_print, removalEvent_getAuth, removalEvent_getHostId,
        removalEvent_getNodeInfo, removalEvent_hostname, removalEvent_catRelease,
        removalEvent_stop, removalEvent_purge, removalEvent_presence, removalEvent_rmEtc,
        removalEvent_rmOpt, removalEvent_rmHome, filter_removal_rm]

/-- Claim C8 witness: local-only removal at a concrete world with an empty
identity list on a redhat-family host. -/
theorem c8_witness :
    (DecommissionNode decomNoIdWorld false).2 = Outcome.done
    ∧ ¬ DEvent.apiDeauth ∈ (DecommissionNode decomNoIdWorld false).1
    ∧ List.filter removalEvent (DecommissionNode decomNoIdWorld false).1 =
        [DEvent.cmd (stopServiceCmd ("pf9-hostagent")),
         DEvent.cmd (stopServiceCmd ("pf9-nodeletd")),
         DEvent.cmd (stopServiceCmd ("pf9-kubelet")),
         DEvent.cmd (purgeCmd ("redhat"))]
        ++ decomNoIdWorld.files.map rmFileEvent := by
  have h := c8_no_identity_local_removal decomNoIdWorld false ("redhat") rfl rfl rfl
    (by decide) rfl rfl
  exact ⟨h.1, h.2.2.1, by simpa using h.2.2.2.2⟩

/-! ## C9 — attach-node resolution and role-group independence -/

theorem hostId_err_none_iff (w : AttachWorld) (fqdn token : String) (ips : List String) :
    (hostId w fqdn token ips).2.2 = none ↔ ∀ ip ∈ ips, ¬ resolvedId w ip = "" := by
  induction ips with
  | nil => simp [hostId]
  | cons ip rest ih =>
    by_cases h : resolvedId w ip = "" <;> simp [hostId, h, ih]

theorem hostId_filter_attach (w : AttachWorld) (fqdn token : String) (ips : List String) :
    List.filter isAttachCall (hostId w fqdn token ips).1 = [] := by
  induction ips with
  | nil => simp [hostId]
  | cons ip rest ih =>
    by_cases h : resolvedId w ip = "" <;>
      simp [hostId, h, List.filter_cons, isAttachCall, ih]

theorem hostId_ids_nil_iff (w : AttachWorld) (fqdn token : String) (ips : List String)
    (h : (hostId w fqdn token ips).2.2 = none) :
    (hostId w fqdn token ips).2.1.isEmpty = ips.isEmpty := by
  induction ips with
  | nil => simp [hostId]
  | cons ip rest ih =>
    by_cases hb : resolvedId w ip = ""
    · rw [hostId] at h
      simp [hb] at h
    · simp [hostId, hb]

/-- Claim C9: against a ready cluster, a run with any unresolvable master
or worker IP is fatal before any attach call; with all IPs resolved, the
role-group attach calls are exactly workers first then masters, the run
completes, and neither group's (logged-only) attach failure suppresses the
other — the conclusion carries no hypothesis on the two attach errors. -/
theorem c9_attach_resolution_and_order (w : AttachWorld) (fqdn : String) (auth : KeystoneAuth)
    (masterIPs workerIPs : List String)
    (hrv : w.remoteInvalid = false) (hlc : w.loadCfgErr = none)
    (hex : w.executorErr = none) (hcl : w.clientErr = none)
    (hst : w.statusRes.err = none)
    (hok : goTrimSpace (goTrimCutset w.statusRes.out ['\n', '"']) = "ok") :
    ((∃ ip ∈ masterIPs ++ workerIPs, resolvedId w ip = "") →
      (∃ m, (attachNodeRun w fqdn auth masterIPs workerIPs).2 = Outcome.fatal m)
      ∧ List.filter isAttachCall (attachNodeRun w fqdn auth masterIPs workerIPs).1 = [])
    ∧ ((∀ ip ∈ masterIPs ++ workerIPs, ¬ resolvedId w ip = "") →
        ¬ (masterIPs = [] ∧ workerIPs = []) →
        List.filter isAttachCall (attachNodeRun w fqdn auth masterIPs workerIPs).1 =
          (if workerIPs.isEmpty then [] else [AEvent.apiAttach ("worker")])
          ++ (if masterIPs.isEmpty then [] else [AEvent.apiAttach ("master")])
        ∧ (attachNodeRun w fqdn auth masterIPs workerIPs).2 = Outcome.done) := by
  constructor
  · rintro ⟨ip0, hip0, hbad⟩
    by_cases hmE : masterIPs = []
    · subst hmE
      simp only [List.nil_append] at hip0
      have hwE : workerIPs ≠ [] := by
        rintro rfl
        exact absurd hip0 (List.not_mem_nil ip0)
      have hw : (hostId w fqdn auth.token workerIPs).2.2 ≠ none := by
        intro hnone
        exact ((hostId_err_none_iff w fqdn auth.token workerIPs).mp hnone) ip0 hip0 hbad
      rcases hwc : (hostId w fqdn auth.token workerIPs).2.2 with _ | we
      · exact absurd hwc hw
      · refine ⟨⟨we, ?_⟩, ?_⟩ <;>
          simp [attachNodeRun, hrv, hlc, hex, hcl, hwE, hwc, List.isEmpty_iff, isAttachCall,
            List.filter_append, List.filter_cons, hostId_filter_attach]
    · rcases hmc : (hostId w fqdn auth.token masterIPs).2.2 with _ | me
      · -- masters resolved: the bad IP is a worker
        have hmall := (hostId_err_none_iff w fqdn auth.token masterIPs).mp hmc
        have hip0w : ip0 ∈ workerIPs := by
          rcases List.mem_append.mp hip0 with hm | hw
          · exact absurd hbad (hmall ip0 hm)
          · exact hw
        have hwE : workerIPs ≠ [] := by
          rintro rfl
          exact absurd hip0w (List.not_mem_nil ip0)
        have hw : (hostId w fqdn auth.token workerIPs).2.2 ≠ none := by
          intro hnone
          exact ((hostId_err_none_iff w fqdn auth.token workerIPs).mp hnone) ip0 hip0w hbad
        rcases hwc : (hostId w fqdn auth.token workerIPs).2.2 with _ | we
        · exact absurd hwc hw
        · refine ⟨⟨we, ?_⟩, ?_⟩ <;>
            simp [attachNodeRun, hrv, hlc, hex, hcl, hmE, hwE, hmc, hwc,
              List.isEmpty_iff, isAttachCall, List.filter_append, List.filter_cons,
              hostId_filter_attach]
      · refine ⟨⟨me, ?_⟩, ?_⟩ <;>
          simp [attachNodeRun, hrv, hlc, hex, hcl, hmE, hmc, List.isEmpty_iff, isAttachCall,
            List.filter_append, List.filter_cons, hostId_filter_attach]
  · intro hall hne
    have hmc : (hostId w fqdn auth.token masterIPs).2.2 = none := by
      rw [hostId_err_none_iff]
      intro ip hip
      exact hall ip (List.mem_append.mpr (Or.inl hip))
    have hwc : (hostId w fqdn auth.token workerIPs).2.2 = none := by
      rw [hostId_err_none_iff]
      intro ip hip
      exact hall ip (List.mem_append.mpr (Or.inr hip))
    have hmn := hostId_ids_nil_iff w fqdn auth.token masterIPs hmc
    have hwn := hostId_ids_nil_iff w fqdn auth.token workerIPs hwc
    by_cases hmE : masterIPs = [] <;> by_cases hwE : workerIPs = []
    · exact absurd ⟨hmE, hwE⟩ hne
    all_goals
      constructor <;>
        simp_all [attachNodeRun, cluster_Status, hrv, hlc, hex, hcl, hst, hok, hmc, hwc,
          List.isEmpty_iff, isAttachCall, List.filter_append, List.filter_cons,
          hostId_filter_attach]

/-- Claim C9 witness: one master and one worker IP, both resolvable, ready
cluster, worker attach failing (logged only) — both attach calls issued,
workers first, run completes. -/
theorem c9_witness :
    List.filter isAttachCall
      (attachNodeRun attachOkWorld ("pf9.example.com") auth0 ["10.0.0.1"] ["10.0.0.2"]).1 =
      [AEvent.apiAttach ("worker"), AEvent.apiAttach ("master")]
    ∧ (attachNodeRun attachOkWorld ("pf9.example.com") auth0 ["10.0.0.1"] ["10.0.0.2"]).2 =
        Outcome.done := by
  have h := (c9_attach_resolution_and_order attachOkWorld ("pf9.example.com") auth0
    ["10.0.0.1"] ["10.0.0.2"] rfl rfl rfl rfl rfl (by decide)).2 (by decide) (by decide)
  exact ⟨by simpa using h.1, h.2⟩

/-! ## C5 — host-identity extraction on empty output -/

/-- Claim C5 (code bug): when the extraction command fails, PrepNode does
return a well-defined error value and never reaches authorization; but
when the command succeeds with whitespace-only output, the source takes
the same error branch with a nil `err` and calls `err.Error()` on it — a
nil-pointer dereference, not an error return.  Evaluated here at a
concrete world: the run panics before authorization instead of returning
the error value the claim (and the surrounding code) intends. -/
theorem c5_hostid_empty_output_panics :
    (PrepNode ctx0 false false auth0 prepPanicWorld).2 = GoResult.panicked
    ∧ ¬ PEvent.apiAuthorizeHost ∈ (PrepNode ctx0 false false auth0 prepPanicWorld).1
    ∧ (PrepNode ctx0 false false auth0
        { prepPanicWorld with hostIdRes := { out := "", err := some ("read failed") } }).2 =
        GoResult.err ("Error: Unable to fetch host ID. read failed")
    ∧ ¬ PEvent.apiAuthorizeHost ∈ (PrepNode ctx0 false false auth0
        { prepPanicWorld with hostIdRes := { out := "", err := some ("read failed") } }).1 := by
  decide

/-! ## C10 — unattended-upgrades handling: classifier evaluation lemmas -/

theorem isUU_cmd_of_ne (s : String) (h1 : s ≠ uuStopCmd) (h2 : s ≠ uuStartCmd)
    (h3 : s ≠ uuDisableCmd) (h4 : s ≠ uuEnableCmd) :
    isUUMutation (PEvent.cmd s) = false := by
  simp [isUUMutation, h1, h2, h3, h4]

theorem isUU_lit_head (p x : String)
    (h1 : strPrefixAux p.data uuStopCmd.data = false)
    (h2 : strPrefixAux p.data uuStartCmd.data = false)
    (h3 : strPrefixAux p.data uuDisableCmd.data = false)
    (h4 : strPrefixAux p.data uuEnableCmd.data = false) :
    isUUMutation (PEvent.cmd (p ++ x)) = false :=
  isUU_cmd_of_ne _ (str_lit_app_ne p x _ h1) (str_lit_app_ne p x _ h2)
    (str_lit_app_ne p x _ h3) (str_lit_app_ne p x _ h4)

theorem isUU_print (s : String) : isUUMutation (PEvent.print s) = false := rfl

theorem isUU_segment : isUUMutation PEvent.segment = false := rfl

theorem isUU_http (s : String) : isUUMutation (PEvent.httpGet s) = false := rfl

theorem isUU_authorize : isUUMutation PEvent.apiAuthorizeHost = false := rfl

theorem isUU_remote (s : String) : isUUMutation (PEvent.cmdRemote s) = false := rfl

theorem isUU_echo : isUUMutation (PEvent.cmd ("echo $HOME")) = false := by decide

theorem isUU_hostid : isUUMutation (PEvent.cmd hostIdExtractCmd) = false := by decide

theorem isUU_mkdir (home : String) :
    isUUMutation (PEvent.cmd ("mkdir -p " ++ home ++ "/pf9")) = false := by
  rw [String.append_assoc]
  exact isUU_lit_head _ _ (by decide) (by decide) (by decide) (by decide)

theorem isUU_curl_certless (ins url home : String) :
    isUUMutation (PEvent.cmd ("curl " ++ ins ++ " --silent --show-error  " ++ url
      ++ " -o  " ++ home ++ "/pf9/installer.sh")) = false := by
  rw [String.append_assoc, String.append_assoc, String.append_assoc, String.append_assoc,
    String.append_assoc]
  exact isUU_lit_head _ _ (by decide) (by decide) (by decide) (by decide)

theorem isUU_curl_legacy (tok url home : String) :
    isUUMutation (PEvent.cmd ("curl --insecure --silent --show-error -H " ++ tok ++ " "
      ++ url ++ " -o " ++ home ++ "/pf9/installer.sh")) = false := by
  rw [String.append_assoc, String.append_assoc, String.append_assoc, String.append_assoc,
    String.append_assoc]
  exact isUU_lit_head _ _ (by decide) (by decide) (by decide) (by decide)

theorem isUU_chmod (home : String) :
    isUUMutation (PEvent.cmd ("chmod +x " ++ home ++ "/pf9/installer.sh")) = false := by
  rw [String.append_assoc]
  exact isUU_lit_head _ _ (by decide) (by decide) (by decide) (by decide)

theorem isUU_rm (home tail : String) :
    isUUMutation (PEvent.cmd ("rm -rf " ++ home ++ tail)) = false := by
  rw [String.append_assoc]
  exact isUU_lit_head _ _ (by decide) (by decide) (by decide) (by decide)

theorem isUU_invoke (ctx : Config) (home opts : String) :
    isUUMutation (PEvent.cmd (installerBaseCmd ctx home ++ " " ++ opts)) = false := by
  unfold installerBaseCmd
  by_cases h : ctx.proxyURL = ""
  · simp only [h, beq_self_eq_true, if_true]
    rw [String.append_assoc, String.append_assoc]
    refine isUU_cmd_of_ne _ ?_ ?_ ?_ ?_ <;>
      exact str_app_ne_of_infix _ _ _ _ (by decide)
  · have hb : (ctx.proxyURL == "") = false := beq_eq_false_iff_ne.mpr h
    simp only [hb, Bool.false_eq_true, if_false]
    rw [String.append_assoc, String.append_assoc, String.append_assoc, String.append_assoc]
    refine isUU_cmd_of_ne _ ?_ ?_ ?_ ?_ <;>
      exact str_app_ne_of_infix _ _ _ _ (by decide)

theorem isUU_pkgquery (hostOS p : String) :
    isUUMutation (PEvent.cmd (pkgQueryCmd hostOS p)) = false := by
  unfold pkgQueryCmd
  by_cases h : hostOS = "debian"
  · simp only [h, beq_self_eq_true, if_true]
    rw [String.append_assoc]
    exact isUU_lit_head _ _ (by decide) (by decide) (by decide) (by decide)
  · have hb : (hostOS == "debian") = false := beq_eq_false_iff_ne.mpr h
    simp only [hb, Bool.false_eq_true, if_false]
    rw [String.append_assoc]
    exact isUU_lit_head _ _ (by decide) (by decide) (by decide) (by decide)

theorem pf9aux_filter_uu (hostOS : String) (q : String → String) (l : List String) :
    List.filter isUUMutation (pf9PackagesPresentAux hostOS q l).1 = [] := by
  induction l with
  | nil => rfl
  | cons p rest ih =>
    by_cases h : q p = "" <;>
      simp [pf9PackagesPresentAux, h, List.filter_cons, isUU_pkgquery, ih]

theorem certless_filter_uu (ctx : Config) (isRemote : Bool) (regionURL : String)
    (auth : KeystoneAuth) (hostOS : String) (w : InstallWorld) :
    List.filter isUUMutation (installHostAgentCertless ctx isRemote regionURL auth hostOS w).1
      = [] := by
  rcases hh : w.homeDirRes.err with _ | e <;>
  rcases hc : w.curlErr with _ | e1 <;>
  rcases hch : w.chmodErr with _ | e2 <;>
  rcases hie : w.installerExit with _ | code <;>
  cases isRemote <;>
  simp [installHostAgentCertless, createDirToDownloadInstaller, removeTempDirAndInstaller,
    hh, hc, hch, hie, List.filter_cons, List.filter_append, isUU_print, isUU_segment,
    isUU_remote, isUU_echo, isUU_mkdir, isUU_curl_certless, isUU_chmod, isUU_rm, isUU_invoke]

theorem legacy_filter_uu (ctx : Config) (isRemote : Bool) (regionURL : String)
    (auth : KeystoneAuth) (hostOS : String) (w : InstallWorld) :
    List.filter isUUMutation (installHostAgentLegacy ctx isRemote regionURL auth hostOS w).1
      = [] := by
  rcases hh : w.homeDirRes.err with _ | e <;>
  rcases hc : w.curlErr with _ | e1 <;>
  rcases hch : w.chmodErr with _ | e2 <;>
  rcases hie : w.installerExit with _ | code <;>
  cases isRemote <;>
  simp [installHostAgentLegacy, createDirToDownloadInstaller, removeTempDirAndInstaller,
    hh, hc, hch, hie, List.filter_cons, List.filter_append, isUU_print, isUU_segment,
    isUU_remote, isUU_echo, isUU_mkdir, isUU_curl_legacy, isUU_chmod, isUU_rm, isUU_invoke]

theorem installHostAgent_filter_uu (ctx : Config) (isRemote : Bool) (auth : KeystoneAuth)
    (hostOS : String) (w : InstallWorld) :
    List.filter isUUMutation (installHostAgent ctx isRemote auth hostOS w).1 = [] := by
  rcases hr : w.regionFetch.err with _ | e
  · rcases hq : w.newReqErr with _ | e1
    · rcases hd : w.discovery with _ | status
      · simp [installHostAgent, hr, hq, hd, List.filter_cons, isUU_http]
      · by_cases h4 : status = 404
        · subst h4
          simp [installHostAgent, hr, hq, hd, List.filter_cons, List.filter_append,
            isUU_http, legacy_filter_uu]
        · by_cases h2 : status = 200
          · subst h2
            simp [installHostAgent, hr, hq, hd, List.filter_cons, List.filter_append,
              isUU_http, certless_filter_uu]
          · simp [installHostAgent, hr, hq, hd, h4, h2, List.filter_cons, isUU_http]
    · simp [installHostAgent, hr, hq]
  · simp [installHostAgent, hr]

theorem prepMain_filter_uu (ctx : Config) (isRemote skipKube : Bool) (auth : KeystoneAuth)
    (hostOS : String) (w : PrepWorld) :
    List.filter isUUMutation (prepMain ctx isRemote skipKube auth hostOS w).1 = [] := by
  have haux := pf9aux_filter_uu hostOS w.pkgQueryOut w.pf9Packages
  have hinst := installHostAgent_filter_uu ctx isRemote auth hostOS w.install
  by_cases hpk : (pf9PackagesPresentAux hostOS w.pkgQueryOut w.pf9Packages).2 = true
  · simp [prepMain, hpk, pf9PackagesPresent, List.filter_append, List.filter_cons, haux,
      isUU_segment]
  · rcases hi : (installHostAgent ctx isRemote auth hostOS w.install).2.1 with _ | e
    · rcases hhid : w.hostIdRes.err with _ | e1
      · by_cases hout : goTrimSpace w.hostIdRes.out = ""
        · simp [prepMain, hpk, hi, hhid, hout, pf9PackagesPresent, List.filter_append,
            List.filter_cons, haux, hinst, isUU_segment, isUU_print, isUU_hostid,
            apply_ite (List.filter isUUMutation)]
        · rcases ha : w.authorizeErr with _ | e2 <;> cases skipKube <;>
            simp [prepMain, hpk, hi, hhid, hout, ha, pf9PackagesPresent, List.filter_append,
              List.filter_cons, haux, hinst, isUU_segment, isUU_print, isUU_hostid,
              isUU_authorize, apply_ite (List.filter isUUMutation)]
      · simp [prepMain, hpk, hi, hhid, pf9PackagesPresent, List.filter_append,
          List.filter_cons, haux, hinst, isUU_segment, isUU_print, isUU_hostid,
          apply_ite (List.filter isUUMutation)]
    · simp [prepMain, hpk, hi, pf9PackagesPresent, List.filter_append, List.filter_cons,
        haux, hinst, isUU_segment]

/-- Claim C10: on a debian prep-node run the unattended-upgrades service is
touched only according to its initial state: reported inactive — no stop,
start, disable or enable command ever appears in the trace; reported
active — it is stopped and the deferred restart runs on every return path
(the world carries arbitrary downstream failures); reported active and
enabled — it is additionally disabled with a matching deferred re-enable,
restored in LIFO order before the restart. -/
theorem c10_unattended_upgrades_conditional (ctx : Config) (isRemote skipKube : Bool)
    (auth : KeystoneAuth) (w : PrepWorld)
    (hplat : ValidatePlatform w.platform = ("debian", none)) :
    (uuActive w = false →
      List.filter isUUMutation (PrepNode ctx isRemote skipKube auth w).1 = [])
    ∧ (uuActive w = true → uuEnabledB w = false →
      List.filter isUUMutation (PrepNode ctx isRemote skipKube auth w).1 =
        [PEvent.cmd uuStopCmd, PEvent.cmd uuStartCmd])
    ∧ (uuActive w = true → uuEnabledB w = true →
      List.filter isUUMutation (PrepNode ctx isRemote skipKube auth w).1 =
        [PEvent.cmd uuStopCmd, PEvent.cmd uuDisableCmd, PEvent.cmd uuEnableCmd,
         PEvent.cmd uuStartCmd]) := by
  have hpm := prepMain_filter_uu ctx isRemote skipKube auth ("debian") w
  have e1 : isUUMutation (PEvent.cmd ("cat /etc/os-release")) = false := by decide
  have e2 : isUUMutation (PEvent.cmd ("systemctl is-active unattended-upgrades")) = false := by
    decide
  have e3 : isUUMutation (PEvent.cmd ("systemctl is-enabled unattended-upgrades")) = false := by
    decide
  have e4 : isUUMutation (PEvent.cmd uuStopCmd) = true := by decide
  have e5 : isUUMutation (PEvent.cmd uuStartCmd) = true := by decide
  have e6 : isUUMutation (PEvent.cmd uuDisableCmd) = true := by decide
  have e7 : isUUMutation (PEvent.cmd uuEnableCmd) = true := by decide
  have hstop : StopUnattendedUpdates = [PEvent.cmd uuStopCmd] := rfl
  have hstart : StartUnattendedUpdates = [PEvent.cmd uuStartCmd] := rfl
  have hdis : DisableUnattendedUpdates = [PEvent.cmd uuDisableCmd] := rfl
  have hen : EnableUnattendedUpdates = [PEvent.cmd uuEnableCmd] := rfl
  refine ⟨?_, ?_, ?_⟩
  · intro hact
    rw [uuActive] at hact
    by_cases hl : w.dpkgLockFree <;>
      simp [PrepNode, hplat, StatusUnattendedUpdates, hact, hl, List.filter_append,
        List.filter_cons, isUU_segment, e1, e2, hpm]
  · intro hact hen2
    rw [uuActive] at hact
    rw [uuEnabledB] at hen2
    by_cases hl : w.dpkgLockFree <;>
      simp [PrepNode, hplat, StatusUnattendedUpdates, IsEnabledUnattendedUpdates, hact, hen2,
        hl, hstop, hstart, List.filter_append, List.filter_cons, isUU_segment, e1, e2, e3,
        e4, e5, hpm]
  · intro hact hen2
    rw [uuActive] at hact
    rw [uuEnabledB] at hen2
    by_cases hl : w.dpkgLockFree <;>
      simp [PrepNode, hplat, StatusUnattendedUpdates, IsEnabledUnattendedUpdates, hact, hen2,
        hl, hstop, hstart, hdis, hen, List.filter_append, List.filter_cons, isUU_segment,
        e1, e2, e3, e4, e5, e6, e7, hpm]

/-- Claim C10 witness: a debian world reporting unattended-upgrades active
and enabled — the mutation trace is exactly stop, disable, deferred
enable, deferred start. -/
theorem c10_witness :
    List.filter isUUMutation (PrepNode ctx0 false false auth0 prepUUWorld).1 =
      [PEvent.cmd uuStopCmd, PEvent.cmd uuDisableCmd, PEvent.cmd uuEnableCmd,
       PEvent.cmd uuStartCmd] :=
  (c10_unattended_upgrades_conditional ctx0 false false auth0 prepUUWorld
    (by decide)).2.2 (by decide) (by decide)

end Pf9
